import Mathlib

/-!
Shallow embedding of `src/backend/lambda_function.py` (academic-chatbot).

Python values that can appear in a JSON-decoded request or response are
modelled by `JValue`; Python exceptions by `PyErr` (the handler only
distinguishes `json.JSONDecodeError` from every other exception, so the
model keeps that distinction).  The process environment (`os.environ`) is
a partial map `Env`.  The one external effect, the Bedrock
`invoke_model` call followed by `response['body'].read()`, is abstracted
as an oracle `BedrockOracle` from the structured request payload to the
raw response string or an error; everything after the read —
`json.loads`, the `['content']` subscript, the emptiness test and
`content[0]['text']` — is embedded from the source.  Logging calls are
side-effect-only and are dropped.
-/

/-- The exception classes the program distinguishes: `json.JSONDecodeError`
(caught specially by the handler), `AttributeError` (from calling `.get` or
`.strip` on a value that lacks it), `ValueError` (from `int()` / `float()`
on a malformed string), and everything else. -/
inductive PyErr where
  | jsonDecode
  | attrErr
  | valueErr
  | other (msg : String)
deriving DecidableEq

/-- A JSON-decoded Python value: `None`, `bool`, a number (JSON numbers are
modelled in `ℚ`), `str`, `list`, or a string-keyed `dict` kept as an
association list. -/
inductive JValue where
  | null
  | bool (b : Bool)
  | num (q : ℚ)
  | str (s : String)
  | arr (xs : List JValue)
  | obj (kvs : List (String × JValue))

/-- Python truthiness of a JSON-decoded value: `None`, `False`, `0`, `""`,
`[]` and the empty dict are falsy, everything else truthy. -/
def truthy : JValue → Bool
  | .null => false
  | .bool b => b
  | .num q => ¬ q = 0
  | .str s => ¬ s = ""
  | .arr [] => false
  | .arr (_ :: _) => true
  | .obj [] => false
  | .obj (_ :: _) => true

/-- Python `len(v)`: defined for `str`, `list` and `dict`, a `TypeError`
otherwise. -/
def jLen : JValue → Except PyErr Nat
  | .str s => .ok s.length
  | .arr xs => .ok xs.length
  | .obj kvs => .ok kvs.length
  | _ => .error (.other "TypeError: object has no len")

/-- Python `v[k]` for a string key `k`: a dict lookup (`KeyError` when the
key is missing), a `TypeError` on every non-dict value. -/
def jSubscript (v : JValue) (k : String) : Except PyErr JValue :=
  match v with
  | .obj kvs =>
    match kvs.lookup k with
    | some x => .ok x
    | none => .error (.other "KeyError")
  | _ => .error (.other "TypeError: value is not subscriptable by str")

/-- Python `v[0]`: the first element of a list (`IndexError` when empty), the
first character of a string, a `KeyError` on a string-keyed dict, a
`TypeError` otherwise. -/
def jIndexZero : JValue → Except PyErr JValue
  | .arr [] => .error (.other "IndexError")
  | .arr (x :: _) => .ok x
  | .str s =>
    match s.data with
    | [] => .error (.other "IndexError")
    | c :: _ => .ok (.str c.toString)
  | .obj _ => .error (.other "KeyError")
  | _ => .error (.other "TypeError: value is not subscriptable by int")

/-- The whitespace characters Python's `str.strip()` removes, restricted to
the ASCII range (the program never feeds it non-ASCII whitespace). -/
def pyIsSpace (c : Char) : Bool :=
  c = ' ' || c = '\t' || c = '\n' || c = '\r' || c = '\x0b' || c = '\x0c'

/-- Python `s.strip()`: drop leading and trailing whitespace. -/
def pyStrip (s : String) : String :=
  String.mk (((s.data.dropWhile pyIsSpace).reverse.dropWhile pyIsSpace).reverse)

/-- Value of a list of decimal digit characters. -/
def digitsVal (cs : List Char) : Nat :=
  cs.foldl (fun a c => a * 10 + (c.toNat - 48)) 0

/-- Python `int(s)` on the ASCII decimal subset: strip whitespace, optional
sign, then a non-empty digit string; `none` models the `ValueError` raised on
anything else (underscore separators and non-ASCII digits, which the program
never uses, are not modelled). -/
def parse_int (s : String) : Option Int :=
  let cs := (pyStrip s).data
  let signed : Bool × List Char :=
    match cs with
    | '-' :: r => (true, r)
    | '+' :: r => (false, r)
    | _ => (false, cs)
  let digits := signed.2
  if ¬ digits = [] ∧ digits.all Char.isDigit then
    some (if signed.1 then -(digitsVal digits : Int) else (digitsVal digits : Int))
  else
    none

/-- Python `float(s)` on the finite decimal-literal subset, with exact
rational semantics: strip whitespace, optional sign, integer and/or
fractional digits around an optional point, optional decimal exponent;
`none` models the `ValueError` on anything else (the `inf`/`nan` spellings,
which the program never uses, are not modelled). -/
def parse_float (s : String) : Option ℚ :=
  let cs := (pyStrip s).data
  let signed : Bool × List Char :=
    match cs with
    | '-' :: r => (true, r)
    | '+' :: r => (false, r)
    | _ => (false, cs)
  let ip := signed.2.takeWhile Char.isDigit
  let rest1 := signed.2.dropWhile Char.isDigit
  let withDot : Bool := match rest1 with | '.' :: _ => true | _ => false
  let afterDot := if withDot then rest1.tail else rest1
  let fp := if withDot then afterDot.takeWhile Char.isDigit else []
  let rest2 := if withDot then afterDot.dropWhile Char.isDigit else rest1
  if ip = [] ∧ fp = [] then none
  else
    let mantissa : ℚ := (digitsVal ip : ℚ) + (digitsVal fp : ℚ) / ((10 : ℚ) ^ fp.length)
    let applySign : ℚ → ℚ := fun q => if signed.1 then -q else q
    let expFactor : List Char → Option ℚ := fun r =>
      match r with
      | '-' :: d => if ¬ d = [] ∧ d.all Char.isDigit then
          some ((10 : ℚ) ^ (-(digitsVal d : ℤ))) else none
      | '+' :: d => if ¬ d = [] ∧ d.all Char.isDigit then
          some ((10 : ℚ) ^ (digitsVal d : ℤ)) else none
      | d => if ¬ d = [] ∧ d.all Char.isDigit then
          some ((10 : ℚ) ^ (digitsVal d : ℤ)) else none
    match rest2 with
    | [] => some (applySign mantissa)
    | 'e' :: r => (expFactor r).map (fun p => applySign (mantissa * p))
    | 'E' :: r => (expFactor r).map (fun p => applySign (mantissa * p))
    | _ => none

/-- Lowercase hexadecimal digit, as used by Python's `json.dumps` in
`\uXXXX` escapes. -/
def hexDigit (n : Nat) : Char :=
  if n < 10 then Char.ofNat (48 + n) else Char.ofNat (87 + n)

/-- Four-digit lowercase hexadecimal rendering of `n % 0x10000`. -/
def hex4 (n : Nat) : String :=
  String.mk [hexDigit (n / 4096 % 16), hexDigit (n / 256 % 16),
             hexDigit (n / 16 % 16), hexDigit (n % 16)]

/-- `\uXXXX` escape for the code point `n`, using a surrogate pair above
the basic multilingual plane, as `json.dumps` does with its default
`ensure_ascii=True`. -/
def uEscape (n : Nat) : String :=
  if n < 0x10000 then "\\u" ++ hex4 n
  else
    "\\u" ++ hex4 (0xd800 + (n - 0x10000) / 0x400) ++
    "\\u" ++ hex4 (0xdc00 + (n - 0x10000) % 0x400)

/-- How `json.dumps` (default options) renders one character inside a JSON
string literal. -/
def jsonEscapeChar (c : Char) : String :=
  if c = '"' then "\\\""
  else if c = '\\' then "\\\\"
  else if c = '\n' then "\\n"
  else if c = '\r' then "\\r"
  else if c = '\t' then "\\t"
  else if c = '\x08' then "\\b"
  else if c = '\x0c' then "\\f"
  else if c.toNat < 0x20 || 0x7e < c.toNat then uEscape c.toNat
  else c.toString

/-- A JSON string literal as `json.dumps` renders it. -/
def dumpString (s : String) : String :=
  "\"" ++ String.join (s.data.map jsonEscapeChar) ++ "\""

/-- Rendering of a JSON number.  Integers render in decimal exactly as
`json.dumps` renders a Python `int`.  No non-integral number ever reaches
`json.dumps` in this program (every serialized body maps strings to
strings), so the non-integral case only needs to be total; it renders the
reduced fraction, standing in for Python's float `repr`. -/
def dumpNum (q : ℚ) : String :=
  if q.den = 1 then toString q.num else toString q.num ++ "/" ++ toString q.den

mutual
/-- Python `json.dumps` with its default separators `(", ", ": ")` and
`ensure_ascii=True`, on JSON-decoded values. -/
def jsonDumps : JValue → String
  | .null => "null"
  | .bool true => "true"
  | .bool false => "false"
  | .num q => dumpNum q
  | .str s => dumpString s
  | .arr xs => "[" ++ jsonDumpsElems xs ++ "]"
  | .obj kvs => "\x7b" ++ jsonDumpsMembers kvs ++ "\x7d"

/-- Comma-separated renderings of array elements. -/
def jsonDumpsElems : List JValue → String
  | [] => ""
  | [x] => jsonDumps x
  | x :: y :: rest => jsonDumps x ++ ", " ++ jsonDumpsElems (y :: rest)

/-- Comma-separated `"key": value` renderings of object members. -/
def jsonDumpsMembers : List (String × JValue) → String
  | [] => ""
  | [(k, v)] => dumpString k ++ ": " ++ jsonDumps v
  | (k, v) :: y :: rest => dumpString k ++ ": " ++ jsonDumps v ++ ", " ++ jsonDumpsMembers (y :: rest)
end

/-- JSON insignificant whitespace (RFC 8259, as accepted by `json.loads`). -/
def jsonWs (c : Char) : Bool :=
  c = ' ' || c = '\t' || c = '\n' || c = '\r'

/-- Skip insignificant whitespace. -/
def skipWs (cs : List Char) : List Char :=
  cs.dropWhile jsonWs

/-- Parse the body of a JSON string literal after the opening quote,
returning the decoded characters and the input after the closing quote.
Escapes are decoded as `json.loads` does; a `\uXXXX` high surrogate
followed by a `\uXXXX` low surrogate is combined into one code point
(lone surrogates, which the program never produces, are not modelled). -/
def parseJsonStringBody : Nat → List Char → Option (List Char × List Char)
  | 0, _ => none
  | _, [] => none
  | fuel + 1, c :: rest =>
    if c = '"' then some ([], rest)
    else if c = '\\' then
      match rest with
      | [] => none
      | e :: rest2 =>
        let decoded : Option (Char × List Char) :=
          if e = '"' then some ('"', rest2)
          else if e = '\\' then some ('\\', rest2)
          else if e = '/' then some ('/', rest2)
          else if e = 'b' then some ('\x08', rest2)
          else if e = 'f' then some ('\x0c', rest2)
          else if e = 'n' then some ('\n', rest2)
          else if e = 'r' then some ('\r', rest2)
          else if e = 't' then some ('\t', rest2)
          else if e = 'u' then
            match rest2 with
            | h1 :: h2 :: h3 :: h4 :: rest3 =>
              if [h1, h2, h3, h4].all (fun h => h.isDigit || ('a' ≤ h ∧ h ≤ 'f') || ('A' ≤ h ∧ h ≤ 'F')) then
                let hv : Char → Nat := fun h =>
                  if h.isDigit then h.toNat - 48
                  else if 'a' ≤ h then h.toNat - 87 else h.toNat - 55
                let n := ((hv h1 * 16 + hv h2) * 16 + hv h3) * 16 + hv h4
                if 0xd800 ≤ n ∧ n ≤ 0xdbff then
                  match rest3 with
                  | '\\' :: 'u' :: l1 :: l2 :: l3 :: l4 :: rest4 =>
                    if [l1, l2, l3, l4].all (fun h => h.isDigit || ('a' ≤ h ∧ h ≤ 'f') || ('A' ≤ h ∧ h ≤ 'F')) then
                      let m := ((hv l1 * 16 + hv l2) * 16 + hv l3) * 16 + hv l4
                      if 0xdc00 ≤ m ∧ m ≤ 0xdfff then
                        some (Char.ofNat (0x10000 + (n - 0xd800) * 0x400 + (m - 0xdc00)), rest4)
                      else none
                    else none
                  | _ => none
                else some (Char.ofNat n, rest3)
              else none
            | _ => none
          else none
        match decoded with
        | none => none
        | some (d, rest3) =>
          match parseJsonStringBody fuel rest3 with
          | some (tail, rem) => some (d :: tail, rem)
          | none => none
    else if c.toNat < 0x20 then none
    else
      match parseJsonStringBody fuel rest with
      | some (tail, rem) => some (c :: tail, rem)
      | none => none

/-- Parse a JSON number (RFC 8259 grammar) into `ℚ`; `json.loads` decodes an
integer literal to `int` and anything with a fraction or exponent to `float`,
both of which the model carries exactly in `ℚ`. -/
def parseJsonNumber (cs : List Char) : Option (ℚ × List Char) :=
  let afterSign : Bool × List Char :=
    match cs with
    | '-' :: r => (true, r)
    | _ => (false, cs)
  let ip := afterSign.2.takeWhile Char.isDigit
  let rest1 := afterSign.2.dropWhile Char.isDigit
  if ip = [] then none
  else if 1 < ip.length ∧ ip.headD '0' = '0' then none
  else
    let withDot : Bool := match rest1 with | '.' :: _ => true | _ => false
    let afterDot := if withDot then rest1.tail else rest1
    let fp := if withDot then afterDot.takeWhile Char.isDigit else []
    let rest2 := if withDot then afterDot.dropWhile Char.isDigit else rest1
    if withDot ∧ fp = [] then none
    else
      let mantissa : ℚ := (digitsVal ip : ℚ) + (digitsVal fp : ℚ) / ((10 : ℚ) ^ fp.length)
      let signedM : ℚ := if afterSign.1 then -mantissa else mantissa
      let expCont : List Char → Option (ℚ × List Char) := fun r =>
        let expSigned : Bool × List Char :=
          match r with
          | '-' :: d => (true, d)
          | '+' :: d => (false, d)
          | _ => (false, r)
        let ed := expSigned.2.takeWhile Char.isDigit
        let rest3 := expSigned.2.dropWhile Char.isDigit
        if ed = [] then none
        else
          let e : ℤ := if expSigned.1 then -(digitsVal ed : ℤ) else (digitsVal ed : ℤ)
          some (signedM * (10 : ℚ) ^ e, rest3)
      match rest2 with
      | 'e' :: r => expCont r
      | 'E' :: r => expCont r
      | _ => some (signedM, rest2)

mutual
/-- Parse one JSON value from the input (fuel-indexed recursive descent),
returning the value and the remaining input. -/
def parseJsonValue : Nat → List Char → Option (JValue × List Char)
  | 0, _ => none
  | fuel + 1, cs =>
    match skipWs cs with
    | [] => none
    | c :: rest =>
      if c = 'n' then
        match rest with
        | 'u' :: 'l' :: 'l' :: rem => some (.null, rem)
        | _ => none
      else if c = 't' then
        match rest with
        | 'r' :: 'u' :: 'e' :: rem => some (.bool true, rem)
        | _ => none
      else if c = 'f' then
        match rest with
        | 'a' :: 'l' :: 's' :: 'e' :: rem => some (.bool false, rem)
        | _ => none
      else if c = '"' then
        match parseJsonStringBody fuel rest with
        | some (chars, rem) => some (.str (String.mk chars), rem)
        | none => none
      else if c = '[' then
        match skipWs rest with
        | ']' :: rem => some (.arr [], rem)
        | _ =>
          match parseJsonElems fuel rest with
          | some (xs, rem) => some (.arr xs, rem)
          | none => none
      else if c = '\x7b' then
        match skipWs rest with
        | '\x7d' :: rem => some (.obj [], rem)
        | _ =>
          match parseJsonMembers fuel rest with
          | some (kvs, rem) => some (.obj kvs, rem)
          | none => none
      else
        match parseJsonNumber (c :: rest) with
        | some (q, rem) => some (.num q, rem)
        | none => none

/-- Parse a non-empty comma-separated list of array elements and the
closing bracket. -/
def parseJsonElems : Nat → List Char → Option (List JValue × List Char)
  | 0, _ => none
  | fuel + 1, cs =>
    match parseJsonValue fuel cs with
    | none => none
    | some (v, rem) =>
      match skipWs rem with
      | ',' :: rem2 =>
        match parseJsonElems fuel rem2 with
        | some (xs, rem3) => some (v :: xs, rem3)
        | none => none
      | ']' :: rem2 => some ([v], rem2)
      | _ => none

/-- Parse a non-empty comma-separated list of object members and the
closing brace. -/
def parseJsonMembers : Nat → List Char → Option (List (String × JValue) × List Char)
  | 0, _ => none
  | fuel + 1, cs =>
    match skipWs cs with
    | '"' :: rest =>
      match parseJsonStringBody fuel rest with
      | none => none
      | some (kchars, rem) =>
        match skipWs rem with
        | ':' :: rem2 =>
          match parseJsonValue fuel rem2 with
          | none => none
          | some (v, rem3) =>
            match skipWs rem3 with
            | ',' :: rem4 =>
              match parseJsonMembers fuel rem4 with
              | some (kvs, rem5) => some ((String.mk kchars, v) :: kvs, rem5)
              | none => none
            | '\x7d' :: rem4 => some ([(String.mk kchars, v)], rem4)
            | _ => none
        | _ => none
    | _ => none
end

/-- Python `json.loads`: parse a complete JSON document, requiring the whole
input to be consumed up to trailing whitespace; any failure is a
`json.JSONDecodeError`. -/
def json_loads (s : String) : Except PyErr JValue :=
  match parseJsonValue (s.length + 2) s.data with
  | some (v, rem) => if skipWs rem = [] then .ok v else .error .jsonDecode
  | none => .error .jsonDecode

/-- The process environment `os.environ`, a partial map from variable names
to values. -/
def Env : Type := String → Option String

/-- Python `os.environ.get(key, dflt)`. -/
def environ_get (env : Env) (key dflt : String) : String :=
  (env key).getD dflt

/-- `Config.get_aws_region`. -/
def Config.get_aws_region (env : Env) : String :=
  environ_get env "AWS_REGION" "us-east-1"

/-- `Config.get_bedrock_model_id`. -/
def Config.get_bedrock_model_id (env : Env) : String :=
  environ_get env "BEDROCK_MODEL_ID" "anthropic.claude-3-haiku-20240307-v1:0"

/-- `Config.get_max_tokens`: `int(os.environ.get('MAX_TOKENS', '1000'))`;
a malformed value raises `ValueError`. -/
def Config.get_max_tokens (env : Env) : Except PyErr Int :=
  match parse_int (environ_get env "MAX_TOKENS" "1000") with
  | some n => .ok n
  | none => .error .valueErr

/-- `Config.get_temperature`: `float(os.environ.get('TEMPERATURE', '0.5'))`;
a malformed value raises `ValueError`. -/
def Config.get_temperature (env : Env) : Except PyErr ℚ :=
  match parse_float (environ_get env "TEMPERATURE" "0.5") with
  | some q => .ok q
  | none => .error .valueErr

/-- `Config.get_allowed_origins`. -/
def Config.get_allowed_origins (env : Env) : String :=
  environ_get env "ALLOWED_ORIGINS" "*"

/-- `Config.get_environment`. -/
def Config.get_environment (env : Env) : String :=
  environ_get env "ENVIRONMENT" "dev"

/-- The fixed fallback apology returned when the model's content list is
empty but the call succeeded. -/
def fallback_message : String :=
  "I apologize, but I couldn\x27t generate a response. Please try again with a different question."

/-- The request payload `BedrockClient.generate_response` sends: the model
id passed to `invoke_model`, and the serialized body's protocol tag, token
limit, temperature and single user-role message carrying the prompt.  The
body's JSON serialization for transport is lossless, so the oracle receives
the structured payload. -/
structure InvokeInput where
  modelId : String
  anthropic_version : String
  max_tokens : Int
  temperature : ℚ
  role : String
  content : String

/-- The external effect `self.client.invoke_model(...)` followed by
`response['body'].read()`: from the request payload to the raw response
string, or any transport/endpoint error. -/
def BedrockOracle : Type := InvokeInput → Except PyErr String

/-- `BedrockClient.generate_response`: build the request payload (the config
reads happen inside the `try`), call the endpoint, `json.loads` the returned
bytes, take `['content']`, and return `content[0]['text']` when
`content and len(content) > 0`, the fallback apology otherwise.  The
`except` clause logs and re-raises the same exception, so every error
propagates unchanged.  The `BedrockClient.__init__` reads of the region and
model id are inlined (the environment is immutable during a request). -/
def BedrockClient.generate_response (oracle : BedrockOracle) (env : Env)
    (prompt : String) : Except PyErr JValue :=
  match Config.get_max_tokens env with
  | .error e => .error e
  | .ok max_tokens =>
    match Config.get_temperature env with
    | .error e => .error e
    | .ok temperature =>
      match oracle ⟨Config.get_bedrock_model_id env, "bedrock-2023-05-31",
                    max_tokens, temperature, "user", prompt⟩ with
      | .error e => .error e
      | .ok raw =>
        match json_loads raw with
        | .error e => .error e
        | .ok response_body =>
          match jSubscript response_body "content" with
          | .error e => .error e
          | .ok content =>
            if truthy content then
              match jLen content with
              | .error e => .error e
              | .ok n =>
                if n > 0 then
                  match jIndexZero content with
                  | .error e => .error e
                  | .ok first => jSubscript first "text"
                else .ok (.str fallback_message)
            else .ok (.str fallback_message)

/-- `AcademicChatbot.create_prompt`: the fixed academic prompt template with
the user message embedded (whitespace reproduced from the source f-string). -/
def AcademicChatbot.create_prompt (user_message : String) : String :=
  "Human: You are an academic assistant designed to help students and researchers with educational topics. \n        Please provide a helpful, accurate, and educational response to the following question. \n        If the question is not academic in nature, politely guide the user back to academic topics.\n        \n        Question: " ++
  user_message ++
  "\n        \n        Please provide a comprehensive yet concise answer. If appropriate, you can:\n        1. Explain key concepts\n        2. Provide examples\n        3. Suggest related topics for further study\n        4. Mention important principles or theories\n        \n        Assistant:"

/-- `AcademicChatbot.process_message`: build the prompt and call the
Bedrock client. -/
def AcademicChatbot.process_message (oracle : BedrockOracle) (env : Env)
    (user_message : String) : Except PyErr JValue :=
  BedrockClient.generate_response oracle env (AcademicChatbot.create_prompt user_message)

/-- The HTTP-shaped response object the handler returns: status code,
header mapping, and JSON-serialized body text. -/
structure HttpResponse where
  statusCode : Nat
  headers : List (String × String)
  body : String
deriving DecidableEq

/-- `create_response`: the uniform envelope builder; fixed content-type and
CORS headers, origin from configuration, body serialized with
`json.dumps`. -/
def create_response (env : Env) (status_code : Nat)
    (body : List (String × JValue)) : HttpResponse :=
  let allowed_origins := Config.get_allowed_origins env
  { statusCode := status_code
    headers := [("Content-Type", "application/json"),
                ("Access-Control-Allow-Origin", allowed_origins),
                ("Access-Control-Allow-Methods", "POST, OPTIONS, GET"),
                ("Access-Control-Allow-Headers", "Content-Type,X-Amz-Date,Authorization,X-Api-Key,X-Amz-Security-Token"),
                ("Access-Control-Allow-Credentials", "true")]
    body := jsonDumps (.obj body) }

/-- Python `body.get('message', '').strip()`: an `AttributeError` when
`body` is not a dict (no `.get`) or when the `message` value is not a
string (no `.strip`). -/
def getMessageStripped (body : JValue) : Except PyErr String :=
  match body with
  | .obj kvs =>
    match (kvs.lookup "message").getD (.str "") with
    | .str s => .ok (pyStrip s)
    | _ => .error .attrErr
  | _ => .error .attrErr

/-- `validate_request`: falsy body → "Request body is required"; empty
trimmed message → "Message is required"; trimmed length over 1000 → the
length error; otherwise no error.  The `.get`/`.strip` chain can raise on
non-dict bodies and non-string messages, which the model carries in
`Except`. -/
def validate_request (body : JValue) : Except PyErr (Option String) :=
  if ¬ truthy body then .ok (some "Request body is required")
  else
    match getMessageStripped body with
    | .error e => .error e
    | .ok user_message =>
      if user_message = "" then .ok (some "Message is required")
      else if user_message.length > 1000 then
        .ok (some "Message is too long. Maximum 1000 characters allowed.")
      else .ok none

/-- Whether `event.get('httpMethod') == 'OPTIONS'` for a dict event. -/
def is_options (kvs : List (String × JValue)) : Bool :=
  match kvs.lookup "httpMethod" with
  | some (.str "OPTIONS") => true
  | _ => false

/-- The body-obtaining step of the handler: `'body' in event and
event['body']` truthy → parse string bodies with `json.loads`, keep others
as-is; absent or falsy body → the empty dict. -/
def extract_body (kvs : List (String × JValue)) : Except PyErr JValue :=
  match kvs.lookup "body" with
  | some bv =>
    if truthy bv then
      match bv with
      | .str s => json_loads s
      | _ => .ok bv
    else .ok (.obj [])
  | none => .ok (.obj [])

/-- The handler's `try` block: preflight check, body extraction, validation,
then prompt building and inference; every `return create_response(...)` is
an `.ok`, every raised exception an `.error`.  A non-dict event raises
`AttributeError` at `event.get('httpMethod')`. -/
def try_block (oracle : BedrockOracle) (env : Env) (event : JValue) :
    Except PyErr HttpResponse :=
  match event with
  | .obj kvs =>
    if is_options kvs then
      .ok (create_response env 200 [])
    else
      match extract_body kvs with
      | .error e => .error e
      | .ok body =>
        match validate_request body with
        | .error e => .error e
        | .ok (some validation_error) =>
          .ok (create_response env 400 [("error", .str validation_error)])
        | .ok none =>
          match getMessageStripped body with
          | .error e => .error e
          | .ok user_message =>
            match AcademicChatbot.process_message oracle env user_message with
            | .error e => .error e
            | .ok bot_response =>
              .ok (create_response env 200
                [("response", bot_response),
                 ("environment", .str (Config.get_environment env)),
                 ("model_used", .str (Config.get_bedrock_model_id env))])
  | _ => .error .attrErr

/-- `lambda_handler`: run the `try` block; `except json.JSONDecodeError` →
400 "Invalid JSON in request body"; `except Exception` → 500 "Internal
server error" with the environment tag. -/
def lambda_handler (oracle : BedrockOracle) (env : Env) (event : JValue) :
    HttpResponse :=
  match try_block oracle env event with
  | .ok resp => resp
  | .error .jsonDecode =>
    create_response env 400 [("error", .str "Invalid JSON in request body")]
  | .error _ =>
    create_response env 500
      [("error", .str "Internal server error"),
       ("environment", .str (Config.get_environment env))]

/-- The spec Validator's output: "either 'valid' (with the extracted trimmed
message) or a human-readable error string, never both". -/
inductive ValidatorOutcome where
  | valid (trimmed : String)
  | invalid (err : String)
deriving DecidableEq

/-- Modelled from the spec (§4.2 Validator), as the reference side of the
refinement check: input a string-keyed mapping; rules in order, first failure
wins — empty body → "Request body is required"; `message` absent or empty
after trimming → "Message is required"; trimmed length over 1000 → the
length error; otherwise valid with the trimmed message. -/
def spec_validate (body : List (String × String)) : ValidatorOutcome :=
  if body = [] then .invalid "Request body is required"
  else
    match body.lookup "message" with
    | none => .invalid "Message is required"
    | some s =>
      if pyStrip s = "" then .invalid "Message is required"
      else if (pyStrip s).length > 1000 then
        .invalid "Message is too long. Maximum 1000 characters allowed."
      else .valid (pyStrip s)

/-- A spec Validator outcome as the code's `Optional[str]` result. -/
def outcomeToValidation : ValidatorOutcome → Option String
  | .valid _ => none
  | .invalid e => some e

/-- A string-keyed mapping of strings, as the JSON object the code's
validator receives. -/
def strBody (kvs : List (String × String)) : JValue :=
  .obj (kvs.map (fun p => (p.1, JValue.str p.2)))

/-- The five terminal branches of the handler. -/
inductive HandlerBranch where
  | preflight
  | parseError
  | validationError
  | success
  | internalError
deriving DecidableEq

/-- The three error strings `validate_request` can produce. -/
def validation_messages : List String :=
  ["Request body is required", "Message is required",
   "Message is too long. Maximum 1000 characters allowed."]

/-- Classify an envelope's status code and (unserialized) body mapping as
one of the handler's five terminal branches; the alternatives are pairwise
disjoint, so an envelope belongs to at most one branch. -/
def classifyShape (env : Env) (s : Nat) (b : List (String × JValue)) :
    Option HandlerBranch :=
  if s = 200 then
    match b with
    | [] => some .preflight
    | [("response", _), ("environment", .str e), ("model_used", .str m)] =>
      if e = Config.get_environment env ∧ m = Config.get_bedrock_model_id env then
        some .success
      else none
    | _ => none
  else if s = 400 then
    match b with
    | [("error", .str msg)] =>
      if msg = "Invalid JSON in request body" then some .parseError
      else if msg ∈ validation_messages then some .validationError
      else none
    | _ => none
  else if s = 500 then
    match b with
    | [("error", .str ie), ("environment", .str e)] =>
      if ie = "Internal server error" ∧ e = Config.get_environment env then
        some .internalError
      else none
    | _ => none
  else none

/-- The empty environment: every configuration variable absent. -/
def envEmpty : Env := fun _ => none

/-- An environment whose numeric variables hold unparseable values. -/
def envBad : Env := fun k =>
  if k = "MAX_TOKENS" then some "abc"
  else if k = "TEMPERATURE" then some "xyz"
  else none

/-- An oracle standing for a Bedrock endpoint that answers every call with
one text segment. -/
def oracleOk : BedrockOracle := fun _ =>
  .ok "\x7b\"content\": [\x7b\"text\": \"Photosynthesis is...\"\x7d]\x7d"

/-- An oracle standing for a Bedrock endpoint whose response body is not
JSON, so that the read succeeds and `json.loads` inside
`generate_response` raises. -/
def oracleNotJson : BedrockOracle := fun _ => .ok "not json"

/-- An oracle standing for a failing Bedrock call (e.g. a transport or
authentication error). -/
def oracleFail : BedrockOracle := fun _ => .error (.other "ClientError")

/-- An oracle standing for a successful call whose content list is empty. -/
def oracleEmpty : BedrockOracle := fun _ => .ok "\x7b\"content\": []\x7d"

/-- Event fixture: a POST whose body asks a question. -/
def eventPhotoKvs : List (String × JValue) :=
  [("httpMethod", .str "POST"),
   ("body", .str "\x7b\"message\": \"What is photosynthesis?\"\x7d")]

/-- Event fixture: a POST with the short message "hi". -/
def eventHiKvs : List (String × JValue) :=
  [("httpMethod", .str "POST"), ("body", .str "\x7b\"message\": \"hi\"\x7d")]

deriving instance DecidableEq for Except

/-- Looking a key up in a mapping of strings embedded as a JSON object finds
the embedded value of the plain lookup. -/
theorem lookup_strBody (kvs : List (String × String)) (k : String) :
    (kvs.map (fun p => (p.1, JValue.str p.2))).lookup k =
      (kvs.lookup k).map JValue.str := by
  induction kvs with
  | nil => rfl
  | cons hd tl ih =>
    by_cases hk : k = hd.1
    · simp [List.lookup, hk]
    · have hb : (k == hd.1) = false := beq_eq_false_iff_ne.mpr hk
      simp [List.lookup, hb, ih]

/-- Every error string `validate_request` returns is one of the three
validation messages. -/
theorem validate_messages_mem (b : JValue) (m : String)
    (h : validate_request b = .ok (some m)) : m ∈ validation_messages := by
  unfold validate_request at h
  split at h
  · simp only [Except.ok.injEq, Option.some.injEq] at h
    simp [validation_messages, ← h]
  · split at h
    · exact absurd h (by simp)
    · split at h
      · simp only [Except.ok.injEq, Option.some.injEq] at h
        simp [validation_messages, ← h]
      · split at h
        · simp only [Except.ok.injEq, Option.some.injEq] at h
          simp [validation_messages, ← h]
        · exact absurd h (by simp)

/-- Every successful result of the handler's `try` block is an envelope
built by `create_response` whose status and body mapping classify to one of
the five terminal branches. -/
theorem try_block_shape (oracle : BedrockOracle) (env : Env) (event : JValue)
    (r : HttpResponse) (h : try_block oracle env event = .ok r) :
    ∃ s b, r = create_response env s b ∧ (classifyShape env s b).isSome := by
  unfold try_block at h
  match event with
  | .null | .bool _ | .num _ | .str _ | .arr _ => exact absurd h (by simp)
  | .obj kvs =>
    simp only at h
    by_cases hopt : is_options kvs = true
    · rw [if_pos hopt] at h
      refine ⟨200, [], ?_, by simp [classifyShape]⟩
      simpa using h.symm
    · rw [if_neg hopt] at h
      cases hx : extract_body kvs with
      | error e => rw [hx] at h; exact absurd h (by simp)
      | ok body =>
        rw [hx] at h
        dsimp only at h
        cases hv : validate_request body with
        | error e => rw [hv] at h; exact absurd h (by simp)
        | ok vres =>
          rw [hv] at h
          cases vres with
          | some m =>
            dsimp only at h
            refine ⟨400, [("error", .str m)], by simpa using h.symm, ?_⟩
            have hm := validate_messages_mem body m hv
            simp only [validation_messages, List.mem_cons,
              List.not_mem_nil, or_false] at hm
            rcases hm with rfl | rfl | rfl <;>
              simp [classifyShape, validation_messages]
          | none =>
            dsimp only at h
            cases hg : getMessageStripped body with
            | error e => rw [hg] at h; exact absurd h (by simp)
            | ok user_message =>
              rw [hg] at h
              dsimp only at h
              cases hp : AcademicChatbot.process_message oracle env user_message with
              | error e => rw [hp] at h; exact absurd h (by simp)
              | ok bot =>
                rw [hp] at h
                dsimp only at h
                refine ⟨200, [("response", bot),
                  ("environment", .str (Config.get_environment env)),
                  ("model_used", .str (Config.get_bedrock_model_id env))],
                  by simpa using h.symm, by simp [classifyShape]⟩

/-- The handler always returns an envelope built by `create_response`, and
its status and body mapping classify to one of the five terminal
branches. -/
theorem handler_shape (oracle : BedrockOracle) (env : Env) (event : JValue) :
    ∃ s b, lambda_handler oracle env event = create_response env s b ∧
      (classifyShape env s b).isSome := by
  unfold lambda_handler
  cases h : try_block oracle env event with
  | ok r =>
    obtain ⟨s, b, rfl, hc⟩ := try_block_shape oracle env event r h
    exact ⟨s, b, rfl, hc⟩
  | error e =>
    cases e with
    | jsonDecode =>
      exact ⟨400, [("error", .str "Invalid JSON in request body")], rfl,
        by simp [classifyShape]⟩
    | attrErr =>
      exact ⟨500, [("error", .str "Internal server error"),
        ("environment", .str (Config.get_environment env))], rfl,
        by simp [classifyShape]⟩
    | valueErr =>
      exact ⟨500, [("error", .str "Internal server error"),
        ("environment", .str (Config.get_environment env))], rfl,
        by simp [classifyShape]⟩
    | other msg =>
      exact ⟨500, [("error", .str "Internal server error"),
        ("environment", .str (Config.get_environment env))], rfl,
        by simp [classifyShape]⟩

/-- The default temperature string parses to one half. -/
theorem parse_float_half : parse_float "0.5" = some ((1 : ℚ) / 2) := by
  have h : parse_float "0.5" =
      some (((0 : ℕ) : ℚ) + ((5 : ℕ) : ℚ) / (10 : ℚ) ^ (1 : ℕ)) := rfl
  rw [h]
  norm_num

/-- With a truthy string body in the event, the body-obtaining step parses
it with `json.loads`. -/
theorem extract_body_str (kvs : List (String × JValue)) (s : String)
    (hbody : kvs.lookup "body" = some (.str s)) (hne : ¬ s = "") :
    extract_body kvs = json_loads s := by
  unfold extract_body
  rw [hbody]
  dsimp only
  have ht : truthy (.str s) = true := by simp [truthy, hne]
  rw [if_pos ht]

/-- On a non-preflight dict event whose body extraction succeeds, the `try`
block reduces to validation followed by inference. -/
theorem try_block_nonpreflight (oracle : BedrockOracle) (env : Env)
    (kvs : List (String × JValue)) (body : JValue)
    (hopt : is_options kvs = false)
    (hx : extract_body kvs = .ok body) :
    try_block oracle env (.obj kvs) =
      match validate_request body with
      | .error e => .error e
      | .ok (some validation_error) =>
        .ok (create_response env 400 [("error", .str validation_error)])
      | .ok none =>
        match getMessageStripped body with
        | .error e => .error e
        | .ok user_message =>
          match AcademicChatbot.process_message oracle env user_message with
          | .error e => .error e
          | .ok bot_response =>
            .ok (create_response env 200
              [("response", bot_response),
               ("environment", .str (Config.get_environment env)),
               ("model_used", .str (Config.get_bedrock_model_id env))]) := by
  unfold try_block
  dsimp only
  rw [if_neg (by simp [hopt])]
  rw [hx]

/-- Extracting the stripped message from an embedded string mapping never
raises and strips the looked-up value (default empty). -/
theorem getMessage_strBody (kvs : List (String × String)) :
    getMessageStripped (strBody kvs) =
      .ok (pyStrip ((kvs.lookup "message").getD "")) := by
  unfold getMessageStripped strBody
  dsimp only
  rw [lookup_strBody]
  cases h : List.lookup "message" kvs <;> simp

/-- A non-empty string mapping embeds to a truthy JSON object. -/
theorem truthy_strBody (kvs : List (String × String)) (h : ¬ kvs = []) :
    truthy (strBody kvs) = true := by
  cases kvs with
  | nil => exact absurd rfl h
  | cons hd tl => simp [strBody, truthy]

set_option maxRecDepth 8192 in
/-- C1: `validate_request` implements the spec's validation reference
definition.  For every string-keyed body mapping the code's validator
returns exactly the spec validator's outcome (checks in order, first
failure wins: empty body → "Request body is required"; absent or
empty-after-trimming `message` → "Message is required"; trimmed length over
1000 → the length error), when the spec validator accepts, the exact
trimmed string is the one the handler extracts downstream, and the
boundaries behave as stated: trimmed length exactly 1000 passes and 1001
fails. -/
theorem validator_refines_spec :
    (∀ kvs : List (String × String),
      validate_request (strBody kvs) = .ok (outcomeToValidation (spec_validate kvs)) ∧
      ∀ t, spec_validate kvs = .valid t → getMessageStripped (strBody kvs) = .ok t) ∧
    validate_request (strBody [("message", String.mk (List.replicate 1000 'a'))]) =
      .ok none ∧
    validate_request (strBody [("message", String.mk (List.replicate 1001 'a'))]) =
      .ok (some "Message is too long. Maximum 1000 characters allowed.") := by
  refine ⟨fun kvs => ?_, by decide, by decide⟩
  cases kvs with
  | nil =>
    exact ⟨rfl, fun t ht => absurd ht (by simp [spec_validate])⟩
  | cons hd tl =>
    have hnil : ¬ (hd :: tl) = ([] : List (String × String)) := by simp
    have hv : validate_request (strBody (hd :: tl)) =
        (if pyStrip (((hd :: tl).lookup "message").getD "") = "" then
           .ok (some "Message is required")
         else if (pyStrip (((hd :: tl).lookup "message").getD "")).length > 1000 then
           .ok (some "Message is too long. Maximum 1000 characters allowed.")
         else .ok none) := by
      unfold validate_request
      rw [truthy_strBody _ hnil, getMessage_strBody]
      simp
    rw [hv]
    cases hm : List.lookup "message" (hd :: tl) with
    | none =>
      constructor
      · simp [spec_validate, hm, outcomeToValidation, show pyStrip "" = "" from rfl]
      · intro t ht
        simp [spec_validate, hm] at ht
    | some s =>
      by_cases h1 : pyStrip s = ""
      · constructor
        · simp [spec_validate, hm, outcomeToValidation, h1]
        · intro t ht
          simp [spec_validate, hm, h1] at ht
      · by_cases h2 : (pyStrip s).length > 1000
        · constructor
          · simp [spec_validate, hm, outcomeToValidation, h1, h2]
          · intro t ht
            simp [spec_validate, hm, h1, h2] at ht
        · constructor
          · simp [spec_validate, hm, outcomeToValidation, h1, h2]
          · intro t ht
            have hts : t = pyStrip s := by
              simp [spec_validate, hm, h1, h2] at ht
              exact ht.symm
            rw [getMessage_strBody, hm, hts]
            rfl

/-- Witness for C1: on the concrete mapping `message ↦ "  hi  "` validation
succeeds and the trimmed string "hi" is extracted downstream. -/
theorem validator_refines_spec_witness :
    validate_request (strBody [("message", "  hi  ")]) = .ok none ∧
    getMessageStripped (strBody [("message", "  hi  ")]) = .ok "hi" := by
  constructor
  · have h := (validator_refines_spec.1 [("message", "  hi  ")]).1
    rw [h]; rfl
  · exact (validator_refines_spec.1 [("message", "  hi  ")]).2 "hi" (by decide)

/-- C2: for every event carrying a non-preflight method and a string body
that parses to an object passing validation, when the inference call
succeeds with text `t` the handler returns the envelope with status 200
whose body is exactly the serialization of
`{response: t, environment: <tag>, model_used: <model id>}`. -/
theorem handler_success_envelope (oracle : BedrockOracle) (env : Env)
    (kvs : List (String × JValue)) (s m t : String)
    (bodyObj : List (String × JValue))
    (hopt : is_options kvs = false)
    (hbody : kvs.lookup "body" = some (.str s))
    (hne : ¬ s = "")
    (hparse : json_loads s = .ok (.obj bodyObj))
    (hvalid : validate_request (.obj bodyObj) = .ok none)
    (hmsg : getMessageStripped (.obj bodyObj) = .ok m)
    (hinf : AcademicChatbot.process_message oracle env m = .ok (.str t)) :
    lambda_handler oracle env (.obj kvs) =
      create_response env 200
        [("response", .str t),
         ("environment", .str (Config.get_environment env)),
         ("model_used", .str (Config.get_bedrock_model_id env))] ∧
    (lambda_handler oracle env (.obj kvs)).statusCode = 200 ∧
    (lambda_handler oracle env (.obj kvs)).body =
      jsonDumps (.obj
        [("response", .str t),
         ("environment", .str (Config.get_environment env)),
         ("model_used", .str (Config.get_bedrock_model_id env))]) := by
  have hx : extract_body kvs = .ok (.obj bodyObj) := by
    rw [extract_body_str kvs s hbody hne, hparse]
  have hmain : lambda_handler oracle env (.obj kvs) =
      create_response env 200
        [("response", .str t),
         ("environment", .str (Config.get_environment env)),
         ("model_used", .str (Config.get_bedrock_model_id env))] := by
    unfold lambda_handler
    rw [try_block_nonpreflight oracle env kvs (.obj bodyObj) hopt hx, hvalid]
    dsimp only
    rw [hmsg]
    dsimp only
    rw [hinf]
  exact ⟨hmain, by rw [hmain]; rfl, by rw [hmain]; rfl⟩

/-- Witness for C2: the photosynthesis event with a stubbed endpoint
returning "Photosynthesis is..." yields the 200 envelope. -/
theorem handler_success_envelope_witness :
    lambda_handler oracleOk envEmpty (.obj eventPhotoKvs) =
      create_response envEmpty 200
        [("response", .str "Photosynthesis is..."),
         ("environment", .str (Config.get_environment envEmpty)),
         ("model_used", .str (Config.get_bedrock_model_id envEmpty))] :=
  (handler_success_envelope oracleOk envEmpty eventPhotoKvs
    "\x7b\"message\": \"What is photosynthesis?\"\x7d"
    "What is photosynthesis?" "Photosynthesis is..."
    [("message", .str "What is photosynthesis?")]
    rfl rfl (by decide) rfl rfl rfl rfl).1

/-- When the inference stage raises, the handler maps a JSON-decode error to
the 400 parse envelope and every other error to the 500 envelope. -/
theorem handler_inference_error (oracle : BedrockOracle) (env : Env)
    (kvs : List (String × JValue)) (s m : String)
    (bodyObj : List (String × JValue)) (err : PyErr)
    (hopt : is_options kvs = false)
    (hbody : kvs.lookup "body" = some (.str s))
    (hne : ¬ s = "")
    (hparse : json_loads s = .ok (.obj bodyObj))
    (hvalid : validate_request (.obj bodyObj) = .ok none)
    (hmsg : getMessageStripped (.obj bodyObj) = .ok m)
    (hperr : AcademicChatbot.process_message oracle env m = .error err) :
    lambda_handler oracle env (.obj kvs) =
      (if err = .jsonDecode then
         create_response env 400 [("error", .str "Invalid JSON in request body")]
       else
         create_response env 500
           [("error", .str "Internal server error"),
            ("environment", .str (Config.get_environment env))]) := by
  have hx : extract_body kvs = .ok (.obj bodyObj) := by
    rw [extract_body_str kvs s hbody hne, hparse]
  unfold lambda_handler
  rw [try_block_nonpreflight oracle env kvs (.obj bodyObj) hopt hx, hvalid]
  dsimp only
  rw [hmsg]
  dsimp only
  rw [hperr]
  cases err <;> rfl

/-- C3 (amended): `generate_response` is asymmetric between empty success
and hard failure.  When the call succeeds and the content list is
non-empty it returns the first element's text; when the call succeeds with
an empty content list it returns exactly the fallback apology (a 200
success for the caller); and any error raised during the call is re-raised
unchanged, whereupon the handler returns the 500 envelope — unless the
propagated error is a JSON-decode error (an unparseable model response
body), which the handler's JSON handler intercepts into the 400
"Invalid JSON in request body" envelope. -/
theorem generate_response_asymmetry :
    (∀ (oracle : BedrockOracle) (env : Env) (prompt : String) (mt : Int)
       (tp : ℚ) (raw : String) (rb x : JValue) (xs : List JValue) (v : JValue),
      Config.get_max_tokens env = .ok mt →
      Config.get_temperature env = .ok tp →
      oracle ⟨Config.get_bedrock_model_id env, "bedrock-2023-05-31", mt, tp,
        "user", prompt⟩ = .ok raw →
      json_loads raw = .ok rb →
      jSubscript rb "content" = .ok (.arr (x :: xs)) →
      jSubscript x "text" = .ok v →
      BedrockClient.generate_response oracle env prompt = .ok v) ∧
    (∀ (oracle : BedrockOracle) (env : Env) (prompt : String) (mt : Int)
       (tp : ℚ) (raw : String) (rb : JValue),
      Config.get_max_tokens env = .ok mt →
      Config.get_temperature env = .ok tp →
      oracle ⟨Config.get_bedrock_model_id env, "bedrock-2023-05-31", mt, tp,
        "user", prompt⟩ = .ok raw →
      json_loads raw = .ok rb →
      jSubscript rb "content" = .ok (.arr []) →
      BedrockClient.generate_response oracle env prompt = .ok (.str fallback_message)) ∧
    (∀ (oracle : BedrockOracle) (env : Env) (prompt : String) (mt : Int)
       (tp : ℚ) (err : PyErr),
      Config.get_max_tokens env = .ok mt →
      Config.get_temperature env = .ok tp →
      oracle ⟨Config.get_bedrock_model_id env, "bedrock-2023-05-31", mt, tp,
        "user", prompt⟩ = .error err →
      BedrockClient.generate_response oracle env prompt = .error err) ∧
    (∀ (oracle : BedrockOracle) (env : Env) (kvs : List (String × JValue))
       (s m : String) (bodyObj : List (String × JValue)) (err : PyErr),
      is_options kvs = false →
      kvs.lookup "body" = some (.str s) →
      ¬ s = "" →
      json_loads s = .ok (.obj bodyObj) →
      validate_request (.obj bodyObj) = .ok none →
      getMessageStripped (.obj bodyObj) = .ok m →
      AcademicChatbot.process_message oracle env m = .error err →
      ¬ err = .jsonDecode →
      lambda_handler oracle env (.obj kvs) =
        create_response env 500
          [("error", .str "Internal server error"),
           ("environment", .str (Config.get_environment env))]) ∧
    (∀ (oracle : BedrockOracle) (env : Env) (kvs : List (String × JValue))
       (s m : String) (bodyObj : List (String × JValue)),
      is_options kvs = false →
      kvs.lookup "body" = some (.str s) →
      ¬ s = "" →
      json_loads s = .ok (.obj bodyObj) →
      validate_request (.obj bodyObj) = .ok none →
      getMessageStripped (.obj bodyObj) = .ok m →
      AcademicChatbot.process_message oracle env m = .error .jsonDecode →
      lambda_handler oracle env (.obj kvs) =
        create_response env 400 [("error", .str "Invalid JSON in request body")]) := by
  refine ⟨?_, ?_, ?_, ?_, ?_⟩
  · intro oracle env prompt mt tp raw rb x xs v hmt htp hor hld hct htx
    unfold BedrockClient.generate_response
    rw [hmt]
    dsimp only
    rw [htp]
    dsimp only
    rw [hor]
    dsimp only
    rw [hld]
    dsimp only
    rw [hct]
    dsimp only
    rw [if_pos (show truthy (.arr (x :: xs)) = true from rfl)]
    dsimp only [jLen]
    rw [if_pos (by simp)]
    dsimp only [jIndexZero]
    exact htx
  · intro oracle env prompt mt tp raw rb hmt htp hor hld hct
    unfold BedrockClient.generate_response
    rw [hmt]
    dsimp only
    rw [htp]
    dsimp only
    rw [hor]
    dsimp only
    rw [hld]
    dsimp only
    rw [hct]
    dsimp only
    rw [if_neg (show ¬ truthy (.arr []) = true by simp [truthy])]
  · intro oracle env prompt mt tp err hmt htp hor
    unfold BedrockClient.generate_response
    rw [hmt]
    dsimp only
    rw [htp]
    dsimp only
    rw [hor]
  · intro oracle env kvs s m bodyObj err hopt hbody hne hparse hvalid hmsg hperr hnd
    rw [handler_inference_error oracle env kvs s m bodyObj err
      hopt hbody hne hparse hvalid hmsg hperr]
    rw [if_neg hnd]
  · intro oracle env kvs s m bodyObj hopt hbody hne hparse hvalid hmsg hperr
    rw [handler_inference_error oracle env kvs s m bodyObj .jsonDecode
      hopt hbody hne hparse hvalid hmsg hperr]
    rfl

/-- Witness for C3 (amended): concrete runs of all five parts — first-text
extraction, empty-content fallback, unchanged re-raise, the 500 envelope
for a non-decode inference failure, and the 400 envelope for a decode
failure in the model response. -/
theorem generate_response_asymmetry_witness :
    BedrockClient.generate_response oracleOk envEmpty "p" =
      .ok (.str "Photosynthesis is...") ∧
    BedrockClient.generate_response oracleEmpty envEmpty "p" =
      .ok (.str fallback_message) ∧
    BedrockClient.generate_response oracleFail envEmpty "p" =
      .error (.other "ClientError") ∧
    lambda_handler oracleFail envEmpty (.obj eventHiKvs) =
      create_response envEmpty 500
        [("error", .str "Internal server error"),
         ("environment", .str (Config.get_environment envEmpty))] ∧
    lambda_handler oracleNotJson envEmpty (.obj eventHiKvs) =
      create_response envEmpty 400
        [("error", .str "Invalid JSON in request body")] :=
  ⟨generate_response_asymmetry.1 oracleOk envEmpty "p" 1000
      (((0 : ℕ) : ℚ) + ((5 : ℕ) : ℚ) / (10 : ℚ) ^ (1 : ℕ))
      "\x7b\"content\": [\x7b\"text\": \"Photosynthesis is...\"\x7d]\x7d"
      (.obj [("content", .arr [.obj [("text", .str "Photosynthesis is...")]])])
      (.obj [("text", .str "Photosynthesis is...")]) []
      (.str "Photosynthesis is...") rfl rfl rfl rfl rfl rfl,
   generate_response_asymmetry.2.1 oracleEmpty envEmpty "p" 1000
      (((0 : ℕ) : ℚ) + ((5 : ℕ) : ℚ) / (10 : ℚ) ^ (1 : ℕ))
      "\x7b\"content\": []\x7d" (.obj [("content", .arr [])])
      rfl rfl rfl rfl rfl,
   generate_response_asymmetry.2.2.1 oracleFail envEmpty "p" 1000
      (((0 : ℕ) : ℚ) + ((5 : ℕ) : ℚ) / (10 : ℚ) ^ (1 : ℕ))
      (.other "ClientError") rfl rfl rfl,
   generate_response_asymmetry.2.2.2.1 oracleFail envEmpty eventHiKvs
      "\x7b\"message\": \"hi\"\x7d" "hi" [("message", .str "hi")]
      (.other "ClientError") rfl rfl (by decide) rfl rfl rfl rfl (by decide),
   generate_response_asymmetry.2.2.2.2 oracleNotJson envEmpty eventHiKvs
      "\x7b\"message\": \"hi\"\x7d" "hi" [("message", .str "hi")]
      rfl rfl (by decide) rfl rfl rfl rfl⟩

/-- Counterexample to C3 as stated: with a Bedrock response body that is
not JSON, the inference call raises and the error is re-raised unchanged,
yet the handler returns the 400 parse envelope, not the claimed 500
envelope. -/
theorem generate_response_asymmetry_counterexample :
    AcademicChatbot.process_message oracleNotJson envEmpty "hi" =
      .error .jsonDecode ∧
    lambda_handler oracleNotJson envEmpty (.obj eventHiKvs) =
      create_response envEmpty 400
        [("error", .str "Invalid JSON in request body")] ∧
    ¬ (lambda_handler oracleNotJson envEmpty (.obj eventHiKvs)).statusCode = 500 :=
  ⟨rfl, rfl, by decide⟩

/-- C4: every envelope carries exactly the fixed header mapping with the
configured origin, identical across all status codes; its body is the JSON
serialization of the given mapping; and every exit path of the handler
routes through `create_response`. -/
theorem envelope_headers_uniform :
    (∀ (env : Env) (s : Nat) (b : List (String × JValue)),
      (create_response env s b).statusCode = s ∧
      (create_response env s b).headers =
        [("Content-Type", "application/json"),
         ("Access-Control-Allow-Origin", Config.get_allowed_origins env),
         ("Access-Control-Allow-Methods", "POST, OPTIONS, GET"),
         ("Access-Control-Allow-Headers", "Content-Type,X-Amz-Date,Authorization,X-Api-Key,X-Amz-Security-Token"),
         ("Access-Control-Allow-Credentials", "true")] ∧
      (create_response env s b).body = jsonDumps (.obj b)) ∧
    (∀ (env : Env) (s s2 : Nat) (b b2 : List (String × JValue)),
      (create_response env s b).headers = (create_response env s2 b2).headers) ∧
    (∀ (oracle : BedrockOracle) (env : Env) (event : JValue),
      ∃ s b, lambda_handler oracle env event = create_response env s b) := by
  refine ⟨fun env s b => ⟨rfl, rfl, rfl⟩, fun env s s2 b b2 => rfl,
    fun oracle env event => ?_⟩
  obtain ⟨s, b, h, _⟩ := handler_shape oracle env event
  exact ⟨s, b, h⟩

/-- C5: the handler is a total function on events — in the embedding it
returns exactly one envelope and can signal no exception — and its result
always classifies to one of the five terminal branches (preflight,
parse error, validation error, success, internal error); `classifyShape`
is single-valued with pairwise-disjoint alternatives, so the branch is
unique. -/
theorem handler_total_five_branches (oracle : BedrockOracle) (env : Env)
    (event : JValue) :
    ∃ s b, lambda_handler oracle env event = create_response env s b ∧
      (classifyShape env s b).isSome :=
  handler_shape oracle env event

/-- C6 (amended): for every event whose body is a non-empty string failing
to parse as JSON, the handler returns the 400 "Invalid JSON in request
body" envelope; the conclusion holds for every oracle, so the inference
stage is never consulted.  (An empty string body also fails to parse, but
it is falsy, so the code replaces it with the empty dict and validation
answers "Request body is required" instead.) -/
theorem parse_error_envelope (oracle : BedrockOracle) (env : Env)
    (kvs : List (String × JValue)) (s : String)
    (hopt : is_options kvs = false)
    (hbody : kvs.lookup "body" = some (.str s))
    (hne : ¬ s = "")
    (hfail : json_loads s = .error .jsonDecode) :
    lambda_handler oracle env (.obj kvs) =
      create_response env 400 [("error", .str "Invalid JSON in request body")] := by
  have hx : extract_body kvs = .error .jsonDecode := by
    rw [extract_body_str kvs s hbody hne, hfail]
  unfold lambda_handler try_block
  dsimp only
  rw [if_neg (by simp [hopt]), hx]

/-- Witness for C6 (amended): the body "invalid json" yields the 400 parse
envelope. -/
theorem parse_error_envelope_witness :
    lambda_handler oracleOk envEmpty
        (.obj [("httpMethod", .str "POST"), ("body", .str "invalid json")]) =
      create_response envEmpty 400
        [("error", .str "Invalid JSON in request body")] :=
  parse_error_envelope oracleOk envEmpty
    [("httpMethod", .str "POST"), ("body", .str "invalid json")]
    "invalid json" rfl rfl (by decide) rfl

/-- Counterexample to C6 as stated: the empty string fails to parse as
JSON, yet the handler answers "Request body is required", not
"Invalid JSON in request body", because the falsy body is replaced by the
empty dict before parsing. -/
theorem parse_error_envelope_counterexample :
    json_loads "" = .error .jsonDecode ∧
    lambda_handler oracleOk envEmpty
        (.obj [("httpMethod", .str "POST"), ("body", .str "")]) =
      create_response envEmpty 400 [("error", .str "Request body is required")] ∧
    ¬ (lambda_handler oracleOk envEmpty
        (.obj [("httpMethod", .str "POST"), ("body", .str "")])).body =
      jsonDumps (.obj [("error", .str "Invalid JSON in request body")]) :=
  ⟨rfl, rfl, by decide⟩

/-- C7: for every event whose `httpMethod` is OPTIONS the handler returns
the 200 envelope with empty JSON body immediately, regardless of any body
content; the conclusion holds for every oracle, so no parsing, validation
or inference occurs. -/
theorem preflight_envelope (oracle : BedrockOracle) (env : Env)
    (kvs : List (String × JValue)) (hopt : is_options kvs = true) :
    lambda_handler oracle env (.obj kvs) = create_response env 200 [] ∧
    (lambda_handler oracle env (.obj kvs)).body = jsonDumps (.obj []) := by
  have h : lambda_handler oracle env (.obj kvs) = create_response env 200 [] := by
    unfold lambda_handler try_block
    dsimp only
    rw [if_pos hopt]
  exact ⟨h, by rw [h]; rfl⟩

/-- Witness for C7: an OPTIONS event that even carries a malformed body
still gets the empty 200 envelope. -/
theorem preflight_envelope_witness :
    lambda_handler oracleOk envEmpty
        (.obj [("httpMethod", .str "OPTIONS"), ("body", .str "invalid json")]) =
      create_response envEmpty 200 [] :=
  (preflight_envelope oracleOk envEmpty
    [("httpMethod", .str "OPTIONS"), ("body", .str "invalid json")] rfl).1

/-- C8: each Config accessor returns its documented default when the
variable is absent (region "us-east-1", max tokens 1000, temperature 0.5,
origin "*", environment "dev"), and a present but unparseable numeric
variable makes the accessor raise `ValueError` rather than silently
default. -/
theorem config_defaults_and_parse_failures (envd envb : Env) (sb tb : String)
    (h1 : envd "AWS_REGION" = none) (h2 : envd "MAX_TOKENS" = none)
    (h3 : envd "TEMPERATURE" = none) (h4 : envd "ALLOWED_ORIGINS" = none)
    (h5 : envd "ENVIRONMENT" = none)
    (h6 : envb "MAX_TOKENS" = some sb) (h7 : parse_int sb = none)
    (h8 : envb "TEMPERATURE" = some tb) (h9 : parse_float tb = none) :
    Config.get_aws_region envd = "us-east-1" ∧
    Config.get_max_tokens envd = .ok 1000 ∧
    Config.get_temperature envd = .ok ((1 : ℚ) / 2) ∧
    Config.get_allowed_origins envd = "*" ∧
    Config.get_environment envd = "dev" ∧
    Config.get_max_tokens envb = .error .valueErr ∧
    Config.get_temperature envb = .error .valueErr := by
  refine ⟨?_, ?_, ?_, ?_, ?_, ?_, ?_⟩
  · unfold Config.get_aws_region environ_get
    rw [h1]
    rfl
  · unfold Config.get_max_tokens environ_get
    rw [h2]
    rfl
  · unfold Config.get_temperature environ_get
    rw [h3]
    dsimp only [Option.getD]
    rw [parse_float_half]
  · unfold Config.get_allowed_origins environ_get
    rw [h4]
    rfl
  · unfold Config.get_environment environ_get
    rw [h5]
    rfl
  · unfold Config.get_max_tokens environ_get
    rw [h6]
    dsimp only [Option.getD]
    rw [h7]
  · unfold Config.get_temperature environ_get
    rw [h8]
    dsimp only [Option.getD]
    rw [h9]

/-- Witness for C8: the empty environment yields all five defaults; the
environment with `MAX_TOKENS=abc` and `TEMPERATURE=xyz` raises from both
numeric accessors. -/
theorem config_defaults_and_parse_failures_witness :
    Config.get_aws_region envEmpty = "us-east-1" ∧
    Config.get_max_tokens envEmpty = .ok 1000 ∧
    Config.get_temperature envEmpty = .ok ((1 : ℚ) / 2) ∧
    Config.get_allowed_origins envEmpty = "*" ∧
    Config.get_environment envEmpty = "dev" ∧
    Config.get_max_tokens envBad = .error .valueErr ∧
    Config.get_temperature envBad = .error .valueErr :=
  config_defaults_and_parse_failures envEmpty envBad "abc" "xyz"
    rfl rfl rfl rfl rfl rfl rfl rfl rfl

/-- C9 (amended): a non-OPTIONS event whose string body parses to a truthy
non-object value gets the 500 internal-error envelope, because validation
raises on the non-mapping value; a falsy non-object value (0, false, null,
"", []) does not reach that path — the falsy body is replaced by the empty
dict and validation answers "Request body is required" with status 400. -/
theorem non_object_body_internal_error (oracle : BedrockOracle) (env : Env)
    (kvs : List (String × JValue)) (s : String) (v : JValue)
    (hopt : is_options kvs = false)
    (hbody : kvs.lookup "body" = some (.str s))
    (hne : ¬ s = "")
    (hparse : json_loads s = .ok v)
    (hobj : ∀ l, ¬ v = .obj l)
    (ht : truthy v = true) :
    lambda_handler oracle env (.obj kvs) =
      create_response env 500
        [("error", .str "Internal server error"),
         ("environment", .str (Config.get_environment env))] := by
  have hx : extract_body kvs = .ok v := by
    rw [extract_body_str kvs s hbody hne, hparse]
  have hgm : getMessageStripped v = .error .attrErr := by
    cases v with
    | obj l => exact absurd rfl (hobj l)
    | null => rfl
    | bool b => rfl
    | num q => rfl
    | str s2 => rfl
    | arr xs => rfl
  have hval : validate_request v = .error .attrErr := by
    unfold validate_request
    rw [if_neg (by simp [ht]), hgm]
  unfold lambda_handler
  rw [try_block_nonpreflight oracle env kvs v hopt hx, hval]

/-- Witness for C9 (amended): the body "42" parses to the truthy non-object
42 and the handler answers the 500 envelope. -/
theorem non_object_body_internal_error_witness :
    lambda_handler oracleOk envEmpty
        (.obj [("httpMethod", .str "POST"), ("body", .str "42")]) =
      create_response envEmpty 500
        [("error", .str "Internal server error"),
         ("environment", .str (Config.get_environment envEmpty))] :=
  non_object_body_internal_error oracleOk envEmpty
    [("httpMethod", .str "POST"), ("body", .str "42")] "42"
    (.num (((42 : ℕ) : ℚ) + ((0 : ℕ) : ℚ) / (10 : ℚ) ^ (0 : ℕ)))
    rfl rfl (by decide) rfl (fun l h => JValue.noConfusion h)
    (by rw [show (((42 : ℕ) : ℚ) + ((0 : ℕ) : ℚ) / (10 : ℚ) ^ (0 : ℕ)) = (42 : ℚ)
          from by norm_num]
        decide)

/-- Counterexample to C9 as stated: the body "0" parses to the non-object
value 0, yet the handler returns 400 "Request body is required", not the
claimed 500 envelope, because 0 is falsy. -/
theorem non_object_body_internal_error_counterexample :
    json_loads "0" = .ok (.num 0) ∧
    (∀ l, ¬ JValue.num 0 = .obj l) ∧
    lambda_handler oracleOk envEmpty
        (.obj [("httpMethod", .str "POST"), ("body", .str "0")]) =
      create_response envEmpty 400 [("error", .str "Request body is required")] ∧
    ¬ (lambda_handler oracleOk envEmpty
        (.obj [("httpMethod", .str "POST"), ("body", .str "0")])).statusCode = 500 := by
  have hq : (((0 : ℕ) : ℚ) + ((0 : ℕ) : ℚ) / (10 : ℚ) ^ (0 : ℕ)) = (0 : ℚ) := by
    norm_num
  have hparse : json_loads "0" = .ok (.num 0) := by
    rw [show json_loads "0" =
        .ok (.num (((0 : ℕ) : ℚ) + ((0 : ℕ) : ℚ) / (10 : ℚ) ^ (0 : ℕ))) from rfl, hq]
  have hx : extract_body [("httpMethod", JValue.str "POST"), ("body", JValue.str "0")] =
      .ok (.num 0) := by
    rw [extract_body_str [("httpMethod", JValue.str "POST"), ("body", JValue.str "0")]
      "0" rfl (by decide), hparse]
  have hmain : lambda_handler oracleOk envEmpty
      (.obj [("httpMethod", .str "POST"), ("body", .str "0")]) =
      create_response envEmpty 400 [("error", .str "Request body is required")] := by
    unfold lambda_handler
    rw [try_block_nonpreflight oracleOk envEmpty
      [("httpMethod", JValue.str "POST"), ("body", JValue.str "0")] (.num 0) rfl hx]
    rfl
  exact ⟨hparse, fun l h => JValue.noConfusion h, hmain, by rw [hmain]; decide⟩

/-- C10: a non-OPTIONS event whose body is a non-empty object whose
`message` field is present but not a string gets the 500 internal-error
envelope — trimming the non-string value raises inside validation — rather
than a 400 validation error. -/
theorem non_string_message_internal_error (oracle : BedrockOracle) (env : Env)
    (kvs bkvs : List (String × JValue)) (v : JValue)
    (hopt : is_options kvs = false)
    (hbody : kvs.lookup "body" = some (.obj bkvs))
    (hnn : ¬ bkvs = [])
    (hmsg : bkvs.lookup "message" = some v)
    (hstr : ∀ t, ¬ v = .str t) :
    lambda_handler oracle env (.obj kvs) =
      create_response env 500
        [("error", .str "Internal server error"),
         ("environment", .str (Config.get_environment env))] := by
  have htr : truthy (.obj bkvs) = true := by
    cases bkvs with
    | nil => exact absurd rfl hnn
    | cons a l => rfl
  have hx : extract_body kvs = .ok (.obj bkvs) := by
    unfold extract_body
    rw [hbody]
    dsimp only
    rw [if_pos htr]
  have hgm : getMessageStripped (.obj bkvs) = .error .attrErr := by
    unfold getMessageStripped
    dsimp only
    rw [hmsg]
    dsimp only [Option.getD]
    cases v with
    | str t => exact absurd rfl (hstr t)
    | null => rfl
    | bool b => rfl
    | num q => rfl
    | arr xs => rfl
    | obj l => rfl
  have hval : validate_request (.obj bkvs) = .error .attrErr := by
    unfold validate_request
    rw [if_neg (by simp [htr]), hgm]
  unfold lambda_handler
  rw [try_block_nonpreflight oracle env kvs (.obj bkvs) hopt hx, hval]

/-- Witness for C10: a body object whose `message` is the number 42 makes
the handler answer the 500 envelope. -/
theorem non_string_message_internal_error_witness :
    lambda_handler oracleOk envEmpty
        (.obj [("httpMethod", .str "POST"),
               ("body", .obj [("message", .num 42)])]) =
      create_response envEmpty 500
        [("error", .str "Internal server error"),
         ("environment", .str (Config.get_environment envEmpty))] :=
  non_string_message_internal_error oracleOk envEmpty
    [("httpMethod", .str "POST"), ("body", .obj [("message", .num 42)])]
    [("message", .num 42)] (.num 42)
    rfl rfl (by simp) rfl (fun t h => JValue.noConfusion h)
